import Mathlib

/-!
Shallow embedding of the wasp-eureka async Eureka client
(package `wasp_eureka`: `client.py` and `exc.py`).

The client holds connection and identity configuration and issues one
HTTP request per operation. We model:
  * the constructor `EurekaClient.__init__` as a pure function producing
    a client record;
  * the lazy `instance_id` property as an explicit state transformer,
    with the nondeterministic `uuid.uuid4()` value passed in as a
    parameter;
  * every operation as a function from client state (plus the external
    HTTP response) to the request it issues, the outcome it produces and
    the client state afterwards;
  * the error branch of `_do_req`, which calls `HTTPStatus(resp.status)`
    - a conversion that raises `ValueError` on codes that are not
    members of the standard `http.HTTPStatus` enumeration - and
    otherwise raises `EurekaException(status, text)`.
JSON values are modelled by an inductive type; `json.dumps` is kept
abstract by storing the JSON value itself as the request body.
-/

namespace WaspEureka

/-- JSON values, as produced by the Python dict literals in the source. -/
inductive Json where
  | str : String → Json
  | num : Int → Json
  | bool : Bool → Json
  | null : Json
  | obj : List (String × Json) → Json

/-- Python str() of an optional string, as used by format: str(None) is
the text None, a plain string formats as itself. -/
def pyStrS : Option String → String
  | none => "None"
  | some s => s

/-- Python str() of an optional integer, as used by format. -/
def pyStrN : Option Nat → String
  | none => "None"
  | some n => toString n

/-- Python `a or b` on optional strings: None and the empty string are
falsy, so they select `b`. -/
def pyOrS (a b : Option String) : Option String :=
  match a with
  | none => b
  | some s => if s = "" then b else some s

/-- Python `s.rstrip(slash)`: drop every trailing slash character. -/
def rstrip_slash (s : String) : String :=
  String.mk ((s.data.reverse.dropWhile (fun c => c == '/')).reverse)

/-- Client state: the slots of `EurekaClient.__slots__` (the event loop
is omitted; it never influences any request). `instanceIdSlot` models
the mutable `_instance_id` slot. -/
structure EurekaClient where
  eurekaUrl : String
  appName : Option String
  port : Option Nat
  hostname : Option String
  ipAddr : Option String
  instanceIdSlot : Option String
  healthCheckUrl : Option String
  statusPageUrl : Option String
deriving DecidableEq

/-- `EurekaClient.__init__` of client.py: strips trailing slashes from
`eureka_url` and appends the /eureka segment, defaults the hostname to
the IP, stores the supplied instance id (possibly None), and defaults
the status page URL to http with the IP, a colon, the port and /info
when none is supplied. -/
def EurekaClient.init (app_name : Option String) (port : Option Nat)
    (ip_addr : Option String) (hostname : Option String)
    (eureka_url : String) (instance_id : Option String)
    (health_check_url : Option String) (status_page_url : Option String) :
    EurekaClient :=
  { eurekaUrl := rstrip_slash eureka_url ++ "/eureka"
    appName := app_name
    port := port
    hostname := pyOrS hostname ip_addr
    ipAddr := ip_addr
    instanceIdSlot := instance_id
    healthCheckUrl := health_check_url
    statusPageUrl :=
      match status_page_url with
      | none => some ("http://" ++ pyStrS ip_addr ++ ":" ++ pyStrN port ++ "/info")
      | some u => some u }

/-- `EurekaClient._generate_instance_id`: the uuid4 string, the app name
and the port joined by colons. The uuid value is an input. -/
def EurekaClient.generate_instance_id (c : EurekaClient) (uuid : String) :
    String :=
  uuid ++ ":" ++ pyStrS c.appName ++ ":" ++ pyStrN c.port

/-- The `instance_id` property: returns the stored id if one exists,
otherwise generates one, stores it and returns it. The pair is the
returned id together with the client state after the access. -/
def EurekaClient.instance_id (c : EurekaClient) (uuid : String) :
    String × EurekaClient :=
  match c.instanceIdSlot with
  | some i => (i, c)
  | none =>
      let i := c.generate_instance_id uuid
      (i, { c with instanceIdSlot := some i })

/-- The members of the standard `http.HTTPStatus` enumeration
(CPython 3.5/3.6, the versions the package targets). `HTTPStatus(n)`
succeeds exactly for these numeric codes. -/
def stdHTTPStatusCodes : List Nat :=
  [100, 101, 102,
   200, 201, 202, 203, 204, 205, 206, 207, 208, 226,
   300, 301, 302, 303, 304, 305, 307, 308,
   400, 401, 402, 403, 404, 405, 406, 407, 408, 409, 410, 411, 412, 413,
   414, 415, 416, 417, 421, 422, 423, 424, 426, 428, 429, 431, 451,
   500, 501, 502, 503, 504, 505, 506, 507, 508, 510, 511]

/-- `http.HTTPStatus(n)`: the enumeration member for `n`, or failure
(a Python ValueError) when `n` is not a member. The member is
represented by its numeric value. -/
def toHTTPStatus (n : Nat) : Option Nat :=
  if n ∈ stdHTTPStatusCodes then some n else none

/-- An HTTP response as seen by `_do_req`: the status code and the body
text (the JSON parse of the body on the success path is kept abstract,
the ok outcome carries the raw body). -/
structure Response where
  status : Nat
  text : String
deriving DecidableEq

/-- Outcome of one `_do_req` call: the parsed body on success, an
`EurekaException` carrying the `HTTPStatus` member and the body text,
or the `ValueError` raised by `HTTPStatus(resp.status)` itself. -/
inductive ReqOutcome where
  | ok : String → ReqOutcome
  | registryError : Nat → String → ReqOutcome
  | valueError : ReqOutcome
deriving DecidableEq

/-- Whether an outcome is a normal (non-raising) return. -/
def ReqOutcome.isSuccess : ReqOutcome → Bool
  | .ok _ => true
  | _ => false

/-- Whether an outcome is an `EurekaException`. -/
def ReqOutcome.isRegistryError : ReqOutcome → Bool
  | .registryError _ _ => true
  | _ => false

/-- The status carried by an `EurekaException` outcome, if any. This is
the `status` property of `exc.EurekaException`. -/
def ReqOutcome.errStatus : ReqOutcome → Option Nat
  | .registryError s _ => some s
  | _ => none

/-- The response-processing branch of `_do_req`: statuses in [400,600)
raise `EurekaException(HTTPStatus(resp.status), await resp.text())`,
where the `HTTPStatus` conversion itself raises ValueError on
non-members; every other status returns the parsed body. -/
def do_req_outcome (resp : Response) : ReqOutcome :=
  if 400 ≤ resp.status ∧ resp.status < 600 then
    match toHTTPStatus resp.status with
    | some s => .registryError s resp.text
    | none => .valueError
  else .ok resp.text

/-- The request `_do_req` issues: method, the path handed to it, the
full URL (the configured base prepended to the path) and the body. -/
structure Request where
  method : String
  path : String
  url : String
  data : Option Json

/-- `_do_req` as issued against client `c`: builds the URL from the
stored base and processes the response. -/
def EurekaClient.do_req (c : EurekaClient) (path : String) (method : String)
    (d : Option Json) (resp : Response) : Request × ReqOutcome :=
  (⟨method, path, c.eurekaUrl ++ path, d⟩, do_req_outcome resp)

/-- One full operation call: the request issued, the outcome of
processing the (externally supplied) response, and the client state
after the call. -/
structure OpRun where
  req : Request
  outcome : ReqOutcome
  client : EurekaClient

/-- The `StatusType` enumeration. -/
inductive StatusType where
  | UP
  | DOWN
  | STARTING
  | OUT_OF_SERVICE
  | UNKNOWN
deriving DecidableEq

/-- The string value of a `StatusType` member. -/
def StatusType.value : StatusType → String
  | .UP => "UP"
  | .DOWN => "DOWN"
  | .STARTING => "STARTING"
  | .OUT_OF_SERVICE => "OUT_OF_SERVICE"
  | .UNKNOWN => "UNKNOWN"

/-- The registration payload of `EurekaClient.register` in client.py,
built exactly as the Python dict literal followed by the three
conditional key insertions. `iid` is the value the `instance_id`
property returned. -/
def EurekaClient.registerPayload (c : EurekaClient) (iid : String)
    (metadata : Option (List (String × Json)))
    (lease_duration lease_renewal_interval : Int) : Json :=
  let base : List (String × Json) :=
    [("instanceId", .str iid),
     ("leaseInfo", .obj
        [("durationInSecs", .num lease_duration),
         ("renewalIntervalInSecs", .num lease_renewal_interval)]),
     ("port", .obj
        [("$", match c.port with | none => .null | some p => .num p),
         ("@enabled", .bool (c.port ≠ none))]),
     ("hostName", match c.hostname with | none => .null | some h => .str h),
     ("app", match c.appName with | none => .null | some a => .str a),
     ("ipAddr", match c.ipAddr with | none => .null | some i => .str i),
     ("vipAddress", match c.appName with | none => .null | some a => .str a),
     ("dataCenterInfo", .obj
        [("@class", .str "com.netflix.appinfo.MyDataCenterInfo"),
         ("name", .str "MyOwn")])]
  let withHealth :=
    match c.healthCheckUrl with
    | some h => base ++ [("healthCheckUrl", Json.str h)]
    | none => base
  let withStatus :=
    match c.statusPageUrl with
    | some s => withHealth ++ [("statusPageUrl", Json.str s)]
    | none => withHealth
  let withMeta :=
    match metadata with
    | some m => if m.isEmpty then withStatus
                else withStatus ++ [("metadata", Json.obj m)]
    | none => withStatus
  Json.obj [("instance", Json.obj withMeta)]

/-- `EurekaClient.register`: POST of the instance descriptor to the
path /apps/ followed by the app name. -/
def EurekaClient.register (c : EurekaClient) (uuid : String)
    (metadata : Option (List (String × Json)))
    (lease_duration lease_renewal_interval : Int) (resp : Response) : OpRun :=
  let p := c.instance_id uuid
  let payload := p.2.registerPayload p.1 metadata
    lease_duration lease_renewal_interval
  let r := p.2.do_req ("/apps/" ++ pyStrS p.2.appName) "POST"
    (some payload) resp
  ⟨r.1, r.2, p.2⟩

/-- `EurekaClient.renew`: PUT to /apps/ app / instance id. -/
def EurekaClient.renew (c : EurekaClient) (uuid : String)
    (resp : Response) : OpRun :=
  let p := c.instance_id uuid
  let r := p.2.do_req ("/apps/" ++ pyStrS p.2.appName ++ "/" ++ p.1)
    "PUT" none resp
  ⟨r.1, r.2, p.2⟩

/-- `EurekaClient.deregister`: DELETE of /apps/ app / instance id. -/
def EurekaClient.deregister (c : EurekaClient) (uuid : String)
    (resp : Response) : OpRun :=
  let p := c.instance_id uuid
  let r := p.2.do_req ("/apps/" ++ pyStrS p.2.appName ++ "/" ++ p.1)
    "DELETE" none resp
  ⟨r.1, r.2, p.2⟩

/-- `EurekaClient.set_status_override`: PUT to the status resource with
the value query parameter. -/
def EurekaClient.set_status_override (c : EurekaClient) (uuid : String)
    (status : StatusType) (resp : Response) : OpRun :=
  let p := c.instance_id uuid
  let r := p.2.do_req
    ("/apps/" ++ pyStrS p.2.appName ++ "/" ++ p.1 ++ "/status?value="
      ++ status.value)
    "PUT" none resp
  ⟨r.1, r.2, p.2⟩

/-- `EurekaClient.remove_status_override`: DELETE of the status
resource. -/
def EurekaClient.remove_status_override (c : EurekaClient) (uuid : String)
    (resp : Response) : OpRun :=
  let p := c.instance_id uuid
  let r := p.2.do_req
    ("/apps/" ++ pyStrS p.2.appName ++ "/" ++ p.1 ++ "/status")
    "DELETE" none resp
  ⟨r.1, r.2, p.2⟩

/-- `EurekaClient.update_meta`: PUT to the metadata resource with the
key and value as a query parameter. -/
def EurekaClient.update_meta (c : EurekaClient) (uuid : String)
    (key value : String) (resp : Response) : OpRun :=
  let p := c.instance_id uuid
  let r := p.2.do_req
    ("/apps/" ++ pyStrS p.2.appName ++ "/" ++ p.1 ++ "/metadata?"
      ++ key ++ "=" ++ value)
    "PUT" none resp
  ⟨r.1, r.2, p.2⟩

/-- `EurekaClient.get_apps`: GET of /apps. -/
def EurekaClient.get_apps (c : EurekaClient) (resp : Response) : OpRun :=
  let r := c.do_req "/apps" "GET" none resp
  ⟨r.1, r.2, c⟩

/-- `EurekaClient.get_app`: GET of /apps/ name, the name defaulting to
the configured app name via Python or. -/
def EurekaClient.get_app (c : EurekaClient) (app_name : Option String)
    (resp : Response) : OpRun :=
  let r := c.do_req ("/apps/" ++ pyStrS (pyOrS app_name c.appName))
    "GET" none resp
  ⟨r.1, r.2, c⟩

/-- Resolution of an optional instance id argument: Python
`instance_id or self.instance_id` only touches the property (and hence
only generates an id) when the argument is falsy. -/
def EurekaClient.resolveIidArg (c : EurekaClient) (arg : Option String)
    (uuid : String) : String × EurekaClient :=
  match arg with
  | some s => if s = "" then c.instance_id uuid else (s, c)
  | none => c.instance_id uuid

/-- `EurekaClient.get_app_instance`: GET of /apps/ name / id, both
defaulting to the configured identity. -/
def EurekaClient.get_app_instance (c : EurekaClient)
    (app_name instance_idArg : Option String) (uuid : String)
    (resp : Response) : OpRun :=
  let name := pyOrS app_name c.appName
  let p := c.resolveIidArg instance_idArg uuid
  let r := p.2.do_req ("/apps/" ++ pyStrS name ++ "/" ++ p.1)
    "GET" none resp
  ⟨r.1, r.2, p.2⟩

/-- `EurekaClient.get_instance`: GET of /instances/ id, the id
defaulting to the configured identity. -/
def EurekaClient.get_instance (c : EurekaClient)
    (instance_idArg : Option String) (uuid : String)
    (resp : Response) : OpRun :=
  let p := c.resolveIidArg instance_idArg uuid
  let r := p.2.do_req ("/instances/" ++ p.1) "GET" none resp
  ⟨r.1, r.2, p.2⟩

/-- `EurekaClient.get_by_vip`: GET of /vips/ address, the address
defaulting to the configured app name. -/
def EurekaClient.get_by_vip (c : EurekaClient)
    (vip_address : Option String) (resp : Response) : OpRun :=
  let r := c.do_req ("/vips/" ++ pyStrS (pyOrS vip_address c.appName))
    "GET" none resp
  ⟨r.1, r.2, c⟩

/-- `EurekaClient.get_by_svip`: GET of /vips/ address, the address
defaulting to the configured app name; the source builds the same
resource path as `get_by_vip`. -/
def EurekaClient.get_by_svip (c : EurekaClient)
    (svip_address : Option String) (resp : Response) : OpRun :=
  let r := c.do_req ("/vips/" ++ pyStrS (pyOrS svip_address c.appName))
    "GET" none resp
  ⟨r.1, r.2, c⟩

/-- The list of field pairs under the instance key of a request body,
empty when the body has another shape. -/
def OpRun.bodyInstanceFields (r : OpRun) : List (String × Json) :=
  match r.req.data with
  | some (Json.obj [("instance", Json.obj l)]) => l
  | _ => []

/-- A concrete client with a supplied instance id, for witnesses. -/
def testClient : EurekaClient :=
  EurekaClient.init (some "orders") (some 8080) (some "10.0.0.5") none
    "http://localhost:8761" (some "iid-1") none none

/-- A concrete client without a supplied instance id, for witnesses. -/
def testClientLazy : EurekaClient :=
  EurekaClient.init (some "orders") (some 8080) (some "10.0.0.5") none
    "http://localhost:8761" none none none

theorem do_req_outcome_std (resp : Response) (h1 : 400 ≤ resp.status)
    (h2 : resp.status < 600) (h3 : resp.status ∈ stdHTTPStatusCodes) :
    do_req_outcome resp = .registryError resp.status resp.text := by
  unfold do_req_outcome toHTTPStatus
  rw [if_pos ⟨h1, h2⟩, if_pos h3]

theorem do_req_outcome_nonstd (resp : Response) (h1 : 400 ≤ resp.status)
    (h2 : resp.status < 600) (h3 : resp.status ∉ stdHTTPStatusCodes) :
    do_req_outcome resp = .valueError := by
  unfold do_req_outcome toHTTPStatus
  rw [if_pos ⟨h1, h2⟩, if_neg h3]

theorem do_req_outcome_ok (resp : Response)
    (h : ¬(400 ≤ resp.status ∧ resp.status < 600)) :
    do_req_outcome resp = .ok resp.text := by
  unfold do_req_outcome
  rw [if_neg h]

theorem instance_id_of_slot (c : EurekaClient) (u i : String)
    (h : c.instanceIdSlot = some i) : c.instance_id u = (i, c) := by
  unfold EurekaClient.instance_id
  rw [h]

theorem instance_id_slot_after (c : EurekaClient) (u : String) :
    ((c.instance_id u).2).instanceIdSlot = some ((c.instance_id u).1) := by
  unfold EurekaClient.instance_id
  cases hc : c.instanceIdSlot with
  | none => rfl
  | some i => simpa using hc

theorem instance_id_idem (c : EurekaClient) (u u2 : String) :
    ((c.instance_id u).2).instance_id u2
      = ((c.instance_id u).1, (c.instance_id u).2) := by
  rw [instance_id_of_slot ((c.instance_id u).2) u2 ((c.instance_id u).1)
    (instance_id_slot_after c u)]

theorem generate_instance_id_ne_empty (c : EurekaClient) (u : String) :
    c.generate_instance_id u ≠ "" := by
  intro h
  have hl := congrArg String.length h
  rw [EurekaClient.generate_instance_id] at hl
  simp only [String.length_append] at hl
  have hc : ":".length = 1 := by decide
  have h0 : "".length = 0 := by decide
  rw [hc, h0] at hl
  omega

theorem eurekaUrl_instance_id (c : EurekaClient) (u : String) :
    ((c.instance_id u).2).eurekaUrl = c.eurekaUrl := by
  unfold EurekaClient.instance_id
  cases hc : c.instanceIdSlot <;> rfl

/-- Claim C1 (amended): for every operation (write or read) of the
EurekaClient, if the HTTP response status is in [400,600) and is a
member of the standard HTTPStatus enumeration, then the operation
raises a RegistryError (EurekaException) instead of returning the
expected result, and the status field of the error exposes the numeric
HTTP status code of the failed call; in particular deregister carries
the status of the response, hence 404 on a 404 response. The amendment
restricts the range [400,600) to the standard status codes: for
non-members the HTTPStatus conversion itself raises ValueError. -/
theorem c1_ops_raise_registry_error_on_standard_error_status
    (c : EurekaClient) (u : String) (md : Option (List (String × Json)))
    (ld lri : Int) (st : StatusType) (k v : String)
    (a iidArg : Option String) (resp : Response)
    (h1 : 400 ≤ resp.status) (h2 : resp.status < 600)
    (h3 : resp.status ∈ stdHTTPStatusCodes) :
    (c.register u md ld lri resp).outcome = .registryError resp.status resp.text ∧
    (c.renew u resp).outcome = .registryError resp.status resp.text ∧
    (c.deregister u resp).outcome = .registryError resp.status resp.text ∧
    (c.set_status_override u st resp).outcome = .registryError resp.status resp.text ∧
    (c.remove_status_override u resp).outcome = .registryError resp.status resp.text ∧
    (c.update_meta u k v resp).outcome = .registryError resp.status resp.text ∧
    (c.get_apps resp).outcome = .registryError resp.status resp.text ∧
    (c.get_app a resp).outcome = .registryError resp.status resp.text ∧
    (c.get_app_instance a iidArg u resp).outcome = .registryError resp.status resp.text ∧
    (c.get_instance iidArg u resp).outcome = .registryError resp.status resp.text ∧
    (c.get_by_vip a resp).outcome = .registryError resp.status resp.text ∧
    (c.get_by_svip a resp).outcome = .registryError resp.status resp.text ∧
    (c.deregister u resp).outcome.errStatus = some resp.status := by
  have key := do_req_outcome_std resp h1 h2 h3
  have ke : (do_req_outcome resp).errStatus = some resp.status := by
    rw [key]
    rfl
  exact ⟨key, key, key, key, key, key, key, key, key, key, key, key, ke⟩

/-- Witness for claim C1: deregister on a 404 response raises the
registry error whose status equals 404. -/
theorem c1_witness_deregister_404 :
    (testClient.deregister "u" (Response.mk 404 "not found")).outcome
      = ReqOutcome.registryError 404 "not found" ∧
    (testClient.deregister "u" (Response.mk 404 "not found")).outcome.errStatus
      = some 404 := by
  have h := c1_ops_raise_registry_error_on_standard_error_status
    testClient "u" none 60 15 StatusType.UP "k" "v" none none
    (Response.mk 404 "not found") (by decide) (by decide) (by decide)
  exact ⟨h.2.2.1, h.2.2.2.2.2.2.2.2.2.2.2.2⟩

/-- Counterexample to claim C1 as stated: the status 599 lies in
[400,600), yet deregister processing a 599 response does not raise a
RegistryError - the HTTPStatus conversion fails first and the call ends
in a ValueError. -/
theorem c1_counterexample_status_599 :
    (400 ≤ 599 ∧ 599 < 600) ∧
    (testClient.deregister "u" (Response.mk 599 "err")).outcome.isRegistryError
      = false ∧
    (testClient.deregister "u" (Response.mk 599 "err")).outcome
      = ReqOutcome.valueError := by
  exact ⟨by decide, by decide, by decide⟩

/-- Claim C10: the error branch of the request helper converts the
numeric status with HTTPStatus before raising, so for a response status
in [400,600) that is not a member of the standard enumeration (such as
599) the operation fails with the ValueError of the conversion rather
than with a RegistryError carrying that code. -/
theorem c10_nonstandard_error_status_raises_value_error
    (c : EurekaClient) (u : String) (md : Option (List (String × Json)))
    (ld lri : Int) (st : StatusType) (k v : String)
    (a iidArg : Option String) (resp : Response)
    (h1 : 400 ≤ resp.status) (h2 : resp.status < 600)
    (h3 : resp.status ∉ stdHTTPStatusCodes) :
    (c.register u md ld lri resp).outcome = .valueError ∧
    (c.renew u resp).outcome = .valueError ∧
    (c.deregister u resp).outcome = .valueError ∧
    (c.set_status_override u st resp).outcome = .valueError ∧
    (c.remove_status_override u resp).outcome = .valueError ∧
    (c.update_meta u k v resp).outcome = .valueError ∧
    (c.get_apps resp).outcome = .valueError ∧
    (c.get_app a resp).outcome = .valueError ∧
    (c.get_app_instance a iidArg u resp).outcome = .valueError ∧
    (c.get_instance iidArg u resp).outcome = .valueError ∧
    (c.get_by_vip a resp).outcome = .valueError ∧
    (c.get_by_svip a resp).outcome = .valueError ∧
    (c.deregister u resp).outcome.isRegistryError = false := by
  have key := do_req_outcome_nonstd resp h1 h2 h3
  have ke : (do_req_outcome resp).isRegistryError = false := by
    rw [key]
    rfl
  exact ⟨key, key, key, key, key, key, key, key, key, key, key, key, ke⟩

/-- Witness for claim C10 at status 599: deregister ends in the
ValueError outcome and not in a registry error. -/
theorem c10_witness_status_599 :
    (testClient.deregister "u" (Response.mk 599 "e")).outcome
      = ReqOutcome.valueError ∧
    (testClient.deregister "u" (Response.mk 599 "e")).outcome.isRegistryError
      = false := by
  have h := c10_nonstandard_error_status_raises_value_error
    testClient "u" none 60 15 StatusType.UP "k" "v" none none
    (Response.mk 599 "e") (by decide) (by decide) (by decide)
  exact ⟨h.2.2.1, h.2.2.2.2.2.2.2.2.2.2.2.2⟩

/-- Claim C2: every write operation (register, renew, deregister,
set_status_override, remove_status_override, update_meta) yields a
success outcome whenever the response status is in the 2xx class - the
success signal of the package client is a normal (non-raising) return,
and it is derived purely from the status: in particular 204, 200 and
201 on register, renew or deregister succeed. -/
theorem c2_write_ops_succeed_on_2xx
    (c : EurekaClient) (u : String) (md : Option (List (String × Json)))
    (ld lri : Int) (st : StatusType) (k v : String) (resp : Response)
    (h1 : 200 ≤ resp.status) (h2 : resp.status < 300) :
    (c.register u md ld lri resp).outcome.isSuccess = true ∧
    (c.renew u resp).outcome.isSuccess = true ∧
    (c.deregister u resp).outcome.isSuccess = true ∧
    (c.set_status_override u st resp).outcome.isSuccess = true ∧
    (c.remove_status_override u resp).outcome.isSuccess = true ∧
    (c.update_meta u k v resp).outcome.isSuccess = true := by
  have hok := do_req_outcome_ok resp (by omega)
  have key : (do_req_outcome resp).isSuccess = true := by
    rw [hok]
    rfl
  exact ⟨key, key, key, key, key, key⟩

/-- Witness for claim C2: register on a 204 response, renew on a 200
response and deregister on a 201 response all succeed. -/
theorem c2_witness_204_200_201 :
    (testClient.register "u" none 60 15 (Response.mk 204 "")).outcome.isSuccess
      = true ∧
    (testClient.renew "u" (Response.mk 200 "")).outcome.isSuccess = true ∧
    (testClient.deregister "u" (Response.mk 201 "")).outcome.isSuccess
      = true := by
  have hreg := (c2_write_ops_succeed_on_2xx testClient "u" none 60 15
    StatusType.UP "k" "v" (Response.mk 204 "") (by decide) (by decide)).1
  have hren := (c2_write_ops_succeed_on_2xx testClient "u" none 60 15
    StatusType.UP "k" "v" (Response.mk 200 "") (by decide) (by decide)).2.1
  have hder := (c2_write_ops_succeed_on_2xx testClient "u" none 60 15
    StatusType.UP "k" "v" (Response.mk 201 "") (by decide) (by decide)).2.2.1
  exact ⟨hreg, hren, hder⟩

/-- Claim C9: for every address argument, explicit or defaulted,
get_by_svip builds and issues exactly the same request as get_by_vip
(both target the /vips/ address path), so a secure-VIP query is
indistinguishable from a plain VIP query at the HTTP interface. -/
theorem c9_get_by_svip_equals_get_by_vip
    (c : EurekaClient) (a : Option String) (resp : Response) :
    c.get_by_svip a resp = c.get_by_vip a resp := rfl

/-- Claim C6: every read-only query defaults its unspecified parameters
to the configured identity of the client: get_app without an app name
uses the configured app name in the path, get_app_instance defaults to
the configured app name and instance id, get_instance defaults to the
configured instance id, and get_by_vip and get_by_svip default to the
configured app name. -/
theorem c6_queries_default_to_own_identity
    (c : EurekaClient) (u : String) (resp : Response) :
    (c.get_app none resp).req.path = "/apps/" ++ pyStrS c.appName ∧
    (c.get_app_instance none none u resp).req.path
      = "/apps/" ++ pyStrS c.appName ++ "/" ++ (c.instance_id u).1 ∧
    (c.get_instance none u resp).req.path
      = "/instances/" ++ (c.instance_id u).1 ∧
    (c.get_by_vip none resp).req.path = "/vips/" ++ pyStrS c.appName ∧
    (c.get_by_svip none resp).req.path = "/vips/" ++ pyStrS c.appName :=
  ⟨rfl, rfl, rfl, rfl, rfl⟩

/-- Claim C7: a renew that receives a 404 response does not mutate any
client state: the client after the call is exactly the client after the
(response-independent) identity resolution, and is unchanged whenever
the instance id slot was already filled; the outcome on 404 is the
registry error with status 404; and a subsequent register call on the
resulting client is issued with the very same instance id in its
payload, without further state change. -/
theorem c7_renew_404_does_not_mutate_state
    (c : EurekaClient) (u u2 i : String)
    (md : Option (List (String × Json))) (ld lri : Int)
    (resp resp2 : Response) :
    (c.renew u resp).client = (c.instance_id u).2 ∧
    (c.instanceIdSlot = some i → (c.renew u resp).client = c) ∧
    (((c.renew u resp).client.instance_id u2).1 = (c.instance_id u).1) ∧
    (resp.status = 404 →
      (c.renew u resp).outcome = .registryError 404 resp.text) ∧
    ((c.renew u resp).client.register u2 md ld lri resp2).req.data
      = some (((c.renew u resp).client).registerPayload
          ((c.instance_id u).1) md ld lri) ∧
    ((c.renew u resp).client.register u2 md ld lri resp2).client
      = (c.renew u resp).client := by
  have hi := instance_id_idem c u u2
  refine ⟨rfl, ?_, ?_, ?_, ?_, ?_⟩
  · intro h
    show (c.instance_id u).2 = c
    rw [instance_id_of_slot c u i h]
  · show ((c.instance_id u).2.instance_id u2).1 = (c.instance_id u).1
    rw [hi]
  · intro h404
    have hs1 : 400 ≤ resp.status := by omega
    have hs2 : resp.status < 600 := by omega
    have hs3 : resp.status ∈ stdHTTPStatusCodes := by
      rw [h404]; decide
    have key := do_req_outcome_std resp hs1 hs2 hs3
    rw [h404] at key
    exact key
  · show some ((((c.instance_id u).2).instance_id u2).2.registerPayload
        ((((c.instance_id u).2).instance_id u2).1) md ld lri)
      = some (((c.instance_id u).2).registerPayload
          ((c.instance_id u).1) md ld lri)
    rw [hi]
  · show (((c.instance_id u).2).instance_id u2).2 = (c.instance_id u).2
    rw [hi]

/-- Witness for claim C7: on a client with a supplied instance id, a
renew answered with 404 leaves the client unchanged and reports the
404 registry error. -/
theorem c7_witness_renew_404 :
    (testClient.renew "u" (Response.mk 404 "gone")).client = testClient ∧
    (testClient.renew "u" (Response.mk 404 "gone")).outcome
      = ReqOutcome.registryError 404 "gone" := by
  have h := c7_renew_404_does_not_mutate_state testClient "u" "u2" "iid-1"
    none 60 15 (Response.mk 404 "gone") (Response.mk 200 "")
  exact ⟨h.2.1 rfl, h.2.2.2.1 rfl⟩

/-- Claim C3: the instance id, once generated (lazily on first access
when none was supplied) or supplied at construction, never changes: a
supplied id is returned as-is without touching the state, a second
access returns the same id and leaves the state fixed, and every
operation that uses the id (register, renew, deregister, the status
calls, update_meta and the instance queries) leaves the resolved client
state unchanged and scopes its path to that same id. -/
theorem c3_instance_id_never_changes
    (c : EurekaClient) (u u2 i : String)
    (md : Option (List (String × Json))) (ld lri : Int)
    (st : StatusType) (k v : String) (resp : Response) :
    (c.instanceIdSlot = some i → c.instance_id u = (i, c)) ∧
    ((c.instance_id u).2.instance_id u2
      = ((c.instance_id u).1, (c.instance_id u).2)) ∧
    (((c.instance_id u).2.register u2 md ld lri resp).client
      = (c.instance_id u).2) ∧
    (((c.instance_id u).2.renew u2 resp).client = (c.instance_id u).2) ∧
    (((c.instance_id u).2.deregister u2 resp).client
      = (c.instance_id u).2) ∧
    (((c.instance_id u).2.set_status_override u2 st resp).client
      = (c.instance_id u).2) ∧
    (((c.instance_id u).2.remove_status_override u2 resp).client
      = (c.instance_id u).2) ∧
    (((c.instance_id u).2.update_meta u2 k v resp).client
      = (c.instance_id u).2) ∧
    (((c.instance_id u).2.get_app_instance none none u2 resp).client
      = (c.instance_id u).2) ∧
    (((c.instance_id u).2.get_instance none u2 resp).client
      = (c.instance_id u).2) ∧
    (((c.instance_id u).2.renew u2 resp).req.path
      = "/apps/" ++ pyStrS ((c.instance_id u).2).appName ++ "/"
          ++ (c.instance_id u).1) ∧
    (((c.instance_id u).2.deregister u2 resp).req.path
      = "/apps/" ++ pyStrS ((c.instance_id u).2).appName ++ "/"
          ++ (c.instance_id u).1) := by
  have hi := instance_id_idem c u u2
  have hsnd : ((c.instance_id u).2.instance_id u2).2 = (c.instance_id u).2 := by
    rw [hi]
  have hpath : "/apps/" ++ pyStrS (((c.instance_id u).2.instance_id u2).2).appName
      ++ "/" ++ ((c.instance_id u).2.instance_id u2).1
      = "/apps/" ++ pyStrS ((c.instance_id u).2).appName ++ "/"
          ++ (c.instance_id u).1 := by
    rw [hi]
  refine ⟨?_, hi, hsnd, hsnd, hsnd, hsnd, hsnd, hsnd, hsnd, hsnd, hpath, hpath⟩
  intro h
  exact instance_id_of_slot c u i h

/-- Witness for claim C3: the concrete client constructed with a
supplied instance id returns it unchanged from the property access. -/
theorem c3_witness_supplied_id_stable :
    testClient.instance_id "u" = ("iid-1", testClient) :=
  (c3_instance_id_never_changes testClient "u" "u2" "iid-1" none 60 15
    StatusType.UP "k" "v" (Response.mk 200 "")).1 rfl

/-- Claim C5: for every eureka_url supplied at construction, the stored
base is the supplied URL with trailing slashes stripped and the /eureka
segment appended, every operation issues its resource path relative to
that base, and in particular renew issues its PUT to the base followed
by /apps/, the app name, a slash and the instance id. -/
theorem c5_all_paths_relative_to_eureka_base
    (app : Option String) (port : Option Nat) (ip host : Option String)
    (burl : String) (iidArg hcu spu : Option String) (u : String)
    (a iidA : Option String) (md : Option (List (String × Json)))
    (ld lri : Int) (st : StatusType) (k v : String) (resp : Response) :
    (EurekaClient.init app port ip host burl iidArg hcu spu).eurekaUrl
      = rstrip_slash burl ++ "/eureka" ∧
    ((EurekaClient.init app port ip host burl iidArg hcu spu).register u md ld lri resp).req.url
      = (EurekaClient.init app port ip host burl iidArg hcu spu).eurekaUrl
        ++ ((EurekaClient.init app port ip host burl iidArg hcu spu).register u md ld lri resp).req.path ∧
    ((EurekaClient.init app port ip host burl iidArg hcu spu).renew u resp).req.url
      = (EurekaClient.init app port ip host burl iidArg hcu spu).eurekaUrl
        ++ ((EurekaClient.init app port ip host burl iidArg hcu spu).renew u resp).req.path ∧
    ((EurekaClient.init app port ip host burl iidArg hcu spu).deregister u resp).req.url
      = (EurekaClient.init app port ip host burl iidArg hcu spu).eurekaUrl
        ++ ((EurekaClient.init app port ip host burl iidArg hcu spu).deregister u resp).req.path ∧
    ((EurekaClient.init app port ip host burl iidArg hcu spu).set_status_override u st resp).req.url
      = (EurekaClient.init app port ip host burl iidArg hcu spu).eurekaUrl
        ++ ((EurekaClient.init app port ip host burl iidArg hcu spu).set_status_override u st resp).req.path ∧
    ((EurekaClient.init app port ip host burl iidArg hcu spu).remove_status_override u resp).req.url
      = (EurekaClient.init app port ip host burl iidArg hcu spu).eurekaUrl
        ++ ((EurekaClient.init app port ip host burl iidArg hcu spu).remove_status_override u resp).req.path ∧
    ((EurekaClient.init app port ip host burl iidArg hcu spu).update_meta u k v resp).req.url
      = (EurekaClient.init app port ip host burl iidArg hcu spu).eurekaUrl
        ++ ((EurekaClient.init app port ip host burl iidArg hcu spu).update_meta u k v resp).req.path ∧
    ((EurekaClient.init app port ip host burl iidArg hcu spu).get_apps resp).req.url
      = (EurekaClient.init app port ip host burl iidArg hcu spu).eurekaUrl
        ++ ((EurekaClient.init app port ip host burl iidArg hcu spu).get_apps resp).req.path ∧
    ((EurekaClient.init app port ip host burl iidArg hcu spu).get_app a resp).req.url
      = (EurekaClient.init app port ip host burl iidArg hcu spu).eurekaUrl
        ++ ((EurekaClient.init app port ip host burl iidArg hcu spu).get_app a resp).req.path ∧
    ((EurekaClient.init app port ip host burl iidArg hcu spu).get_app_instance a iidA u resp).req.url
      = (EurekaClient.init app port ip host burl iidArg hcu spu).eurekaUrl
        ++ ((EurekaClient.init app port ip host burl iidArg hcu spu).get_app_instance a iidA u resp).req.path ∧
    ((EurekaClient.init app port ip host burl iidArg hcu spu).get_instance iidA u resp).req.url
      = (EurekaClient.init app port ip host burl iidArg hcu spu).eurekaUrl
        ++ ((EurekaClient.init app port ip host burl iidArg hcu spu).get_instance iidA u resp).req.path ∧
    ((EurekaClient.init app port ip host burl iidArg hcu spu).get_by_vip a resp).req.url
      = (EurekaClient.init app port ip host burl iidArg hcu spu).eurekaUrl
        ++ ((EurekaClient.init app port ip host burl iidArg hcu spu).get_by_vip a resp).req.path ∧
    ((EurekaClient.init app port ip host burl iidArg hcu spu).get_by_svip a resp).req.url
      = (EurekaClient.init app port ip host burl iidArg hcu spu).eurekaUrl
        ++ ((EurekaClient.init app port ip host burl iidArg hcu spu).get_by_svip a resp).req.path ∧
    ((EurekaClient.init app port ip host burl iidArg hcu spu).renew u resp).req.path
      = "/apps/" ++ pyStrS app ++ "/"
        ++ ((EurekaClient.init app port ip host burl iidArg hcu spu).instance_id u).1 := by
  refine ⟨rfl, ?_, ?_, ?_, ?_, ?_, ?_, rfl, rfl, ?_, ?_, rfl, rfl, ?_⟩
  · rcases iidArg with _ | s0 <;> rfl
  · rcases iidArg with _ | s0 <;> rfl
  · rcases iidArg with _ | s0 <;> rfl
  · rcases iidArg with _ | s0 <;> rfl
  · rcases iidArg with _ | s0 <;> rfl
  · rcases iidArg with _ | s0 <;> rfl
  · rcases iidA with _ | s1
    · rcases iidArg with _ | s0 <;> rfl
    · by_cases hs1 : s1 = ""
      · subst hs1
        rcases iidArg with _ | s0 <;> rfl
      · simp [EurekaClient.get_app_instance, EurekaClient.resolveIidArg,
          EurekaClient.do_req, hs1]
  · rcases iidA with _ | s1
    · rcases iidArg with _ | s0 <;> rfl
    · by_cases hs1 : s1 = ""
      · subst hs1
        rcases iidArg with _ | s0 <;> rfl
      · simp [EurekaClient.get_instance, EurekaClient.resolveIidArg,
          EurekaClient.do_req, hs1]
  · rcases iidArg with _ | s0 <;> rfl

/-- Claim C8: when status_page_url is not supplied at construction, the
stored status page URL is exactly http followed by the configured IP, a
colon, the port and /info, and it is sent in the registration
descriptor as the statusPageUrl field; when status_page_url is
supplied, that value is stored and sent unchanged. -/
theorem c8_status_page_url_default_and_verbatim
    (app : Option String) (port : Option Nat) (ip host : Option String)
    (burl : String) (iidArg hcu : Option String) (ip0 spu : String)
    (p0 : Nat) (u : String) (md : Option (List (String × Json)))
    (ld lri : Int) (resp : Response) :
    (EurekaClient.init app (some p0) (some ip0) host burl iidArg hcu none).statusPageUrl
      = some ("http://" ++ ip0 ++ ":" ++ toString p0 ++ "/info") ∧
    (EurekaClient.init app port ip host burl iidArg hcu (some spu)).statusPageUrl
      = some spu ∧
    ("statusPageUrl", Json.str ("http://" ++ ip0 ++ ":" ++ toString p0 ++ "/info")) ∈
      ((EurekaClient.init app (some p0) (some ip0) host burl iidArg hcu none).register
        u md ld lri resp).bodyInstanceFields ∧
    ("statusPageUrl", Json.str spu) ∈
      ((EurekaClient.init app port ip host burl iidArg hcu (some spu)).register
        u md ld lri resp).bodyInstanceFields := by
  refine ⟨rfl, rfl, ?_, ?_⟩
  all_goals rcases iidArg with _ | s0 <;> rcases md with _ | m
  all_goals try by_cases hm : m.isEmpty
  all_goals simp [EurekaClient.register, EurekaClient.registerPayload,
    EurekaClient.do_req, OpRun.bodyInstanceFields, EurekaClient.init,
    EurekaClient.instance_id, pyStrS, pyStrN, *]

/-- Claim C4: for every valid registration configuration (one whose
supplied instance id, if any, is non-empty), register issues a POST to
the /apps/ app path whose JSON body is the instance descriptor with
instanceId, leaseInfo (durationInSecs and renewalIntervalInSecs), port
(dollar value and enabled flag), hostName, app, ipAddr, vipAddress and
the MyDataCenterInfo tag, with healthCheckUrl and metadata included
only when present and statusPageUrl carrying the stored value; the
instanceId field is non-empty, and a supplied instance id appears
verbatim. -/
theorem c4_register_payload_shape
    (app : Option String) (port : Option Nat) (ip host : Option String)
    (burl : String) (iidArg hcu spu : Option String) (u : String)
    (md : Option (List (String × Json))) (ld lri : Int) (resp : Response)
    (hvalid : iidArg = none ∨ ∃ s, iidArg = some s ∧ s ≠ "") :
    ((EurekaClient.init app port ip host burl iidArg hcu spu).register u md ld lri resp).req.method
      = "POST" ∧
    ((EurekaClient.init app port ip host burl iidArg hcu spu).register u md ld lri resp).req.path
      = "/apps/" ++ pyStrS app ∧
    ((EurekaClient.init app port ip host burl iidArg hcu spu).register u md ld lri resp).req.data
      = some (Json.obj [("instance", Json.obj (
          [("instanceId", Json.str
              (((EurekaClient.init app port ip host burl iidArg hcu spu).instance_id u).1)),
           ("leaseInfo", Json.obj
              [("durationInSecs", Json.num ld),
               ("renewalIntervalInSecs", Json.num lri)]),
           ("port", Json.obj
              [("$", match port with | none => Json.null | some p => Json.num p),
               ("@enabled", Json.bool (port ≠ none))]),
           ("hostName", match pyOrS host ip with
              | none => Json.null
              | some h => Json.str h),
           ("app", match app with
              | none => Json.null
              | some a2 => Json.str a2),
           ("ipAddr", match ip with
              | none => Json.null
              | some i2 => Json.str i2),
           ("vipAddress", match app with
              | none => Json.null
              | some a2 => Json.str a2),
           ("dataCenterInfo", Json.obj
              [("@class", Json.str "com.netflix.appinfo.MyDataCenterInfo"),
               ("name", Json.str "MyOwn")])]
          ++ (match hcu with
              | none => []
              | some h => [("healthCheckUrl", Json.str h)])
          ++ [("statusPageUrl", Json.str
                (match spu with
                 | none => "http://" ++ pyStrS ip ++ ":" ++ pyStrN port ++ "/info"
                 | some s2 => s2))]
          ++ (match md with
              | none => []
              | some m => if m.isEmpty then []
                          else [("metadata", Json.obj m)])))]) ∧
    (((EurekaClient.init app port ip host burl iidArg hcu spu).instance_id u).1 ≠ "") ∧
    (∀ s, iidArg = some s →
      ((EurekaClient.init app port ip host burl iidArg hcu spu).instance_id u).1 = s) := by
  refine ⟨rfl, ?_, ?_, ?_, ?_⟩
  · rcases iidArg with _ | s0 <;> rfl
  · rcases iidArg with _ | s0 <;> rcases hcu with _ | h0 <;>
      rcases spu with _ | s2 <;> rcases md with _ | m
    all_goals try by_cases hm : m.isEmpty
    all_goals simp [EurekaClient.register, EurekaClient.registerPayload,
      EurekaClient.do_req, EurekaClient.init, EurekaClient.instance_id, *]
  · rcases hvalid with h | ⟨s, hs, hne⟩
    · subst h
      exact generate_instance_id_ne_empty _ u
    · subst hs
      exact hne
  · intro s hs
    subst hs
    rfl

/-- Witness for claim C4: a client constructed with a supplied instance
id issues the POST and the supplied id appears verbatim and non-empty
in the identity used for registration. -/
theorem c4_witness_register_payload :
    ((EurekaClient.init (some "orders") (some 8080) (some "10.0.0.5") none
        "http://localhost:8761" (some "abc") none none).register "u" none 60 15
        (Response.mk 204 "")).req.method = "POST" ∧
    (((EurekaClient.init (some "orders") (some 8080) (some "10.0.0.5") none
        "http://localhost:8761" (some "abc") none none).instance_id "u").1 ≠ "") ∧
    (((EurekaClient.init (some "orders") (some 8080) (some "10.0.0.5") none
        "http://localhost:8761" (some "abc") none none).instance_id "u").1
      = "abc") := by
  have h := c4_register_payload_shape (some "orders") (some 8080)
    (some "10.0.0.5") none "http://localhost:8761" (some "abc") none none
    "u" none 60 15 (Response.mk 204 "")
    (Or.inr ⟨"abc", rfl, by decide⟩)
  exact ⟨h.1, h.2.2.2.1, h.2.2.2.2 "abc" rfl⟩

end WaspEureka
